import Mathlib

/-!
Shallow embedding of the mock OIDC provider's request-handling core
(`handlers.go`): the Authorize and Token flows, the grant-specific
validators, the bearer-token authorizer, and the shared validator and
response primitives.  External collaborators (session store contents,
JWT signing/verification, the clock, the synthetic-user queue) are
modelled as explicit state and injected functions.
-/

namespace Mockoidc

/-- Error kind constant `invalid_request`. -/
def InvalidRequest : String := "invalid_request"

/-- Error kind constant `invalid_client`. -/
def InvalidClient : String := "invalid_client"

/-- Error kind constant `invalid_grant`. -/
def InvalidGrant : String := "invalid_grant"

/-- Error kind constant `unsupported_grant_type`. -/
def UnsupportedGrantType : String := "unsupported_grant_type"

/-- Error kind constant `invalid_scope`. -/
def InvalidScope : String := "invalid_scope"

/-- The scope string that triggers ID-token minting. -/
def openidScope : String := "openid"

/-- The supported scope set published in discovery and enforced by
`validateScope`. -/
def ScopesSupported : List String := ["openid", "email", "groups", "profile"]

/-- Value of the `Cache-Control` header set by `noCache`. -/
def noCacheValue : String := "no-cache, no-store, must-revalidate, max-age=0"

/-- One authorization transaction.  The session identifier doubles as the
authorization code; `granted` records whether the code has been redeemed. -/
structure Session where
  sessionID : String
  scopes : List String
  nonce : String
  user : String
  granted : Bool
deriving DecidableEq, Repr

/-- Modelled from the spec: the Session Store collaborator's state, the
sessions it currently holds (its expiry policy is out of scope). -/
structure SessionStore where
  sessions : List Session
deriving DecidableEq, Repr

/-- A JSON-ish value stored under a claim key.  Numeric claims (Go
`float64`) are modelled as integers; every claim minted by this mock is
integral. -/
inductive ClaimValue
  | num (n : Int)
  | str (s : String)
  | other
deriving DecidableEq, Repr

/-- A JWT claims map. -/
abbrev Claims := List (String × ClaimValue)

/-- Lookup of a claim by key, first binding wins. -/
def claimsGet (cs : Claims) (k : String) : Option ClaimValue :=
  (cs.find? (fun kv => kv.1 = k)).map (fun kv => kv.2)

/-- The claims payload of a verified token: either a map (Go
`jwt.MapClaims`) or some other claims type, on which the type assertion
in `authorizeToken` fails. -/
inductive JwtClaims
  | mapClaims (cs : Claims)
  | otherClaims
deriving DecidableEq, Repr

/-- A verified JWT as returned by the Key Authority's verification. -/
structure JwtToken where
  claims : JwtClaims
  raw : String
deriving DecidableEq, Repr

/-- The token-endpoint success body.  Empty strings stand for the Go zero
value, omitted on the wire by `omitempty`. -/
structure TokenResponse where
  accessToken : String := ""
  refreshToken : String := ""
  idToken : String := ""
  tokenType : String
  expiresIn : Int
deriving DecidableEq, Repr

/-- The body of an HTTP response produced by the core. -/
inductive ResponseBody
  | errorBody (error description : String)
  | tokenBody (tr : TokenResponse)
  | redirectBody
deriving DecidableEq, Repr

/-- An HTTP response: status, the headers the core may set, and the body.
A header field is `none` when the corresponding `Header().Set` was never
executed for the response. -/
structure HttpResponse where
  status : Nat
  contentType : Option String := none
  cacheControl : Option String := none
  pragma : Option String := none
  location : Option String := none
  body : ResponseBody
deriving DecidableEq, Repr

/-- JSON error response: sets the no-cache headers, the JSON content type,
the given status, and the `{error, error_description}` body. -/
def errorResponse (error description : String) (statusCode : Nat) : HttpResponse :=
  { status := statusCode
    contentType := some "application/json"
    cacheControl := some noCacheValue
    pragma := some "no-cache"
    body := ResponseBody.errorBody error description }

/-- 500 response wrapping a collaborator error message. -/
def internalServerError (errorMsg : String) : HttpResponse :=
  errorResponse "internal_server_error" errorMsg 500

/-- 200 JSON response carrying a token-endpoint success body (the `noCache`
plus `jsonResponse` path of the Token flow). -/
def jsonTokenResponse (tr : TokenResponse) : HttpResponse :=
  { status := 200
    contentType := some "application/json"
    cacheControl := some noCacheValue
    pragma := some "no-cache"
    body := ResponseBody.tokenBody tr }

/-- 302 redirect as produced by `http.Redirect`: only the `Location` header
is set; query-string merging of `net/url` is abstracted to concatenation,
no property proved here depends on the target's text. -/
def redirectResponse (uri code state : String) : HttpResponse :=
  { status := 302
    location := some (uri ++ "?code=" ++ code ++ "&state=" ++ state)
    body := ResponseBody.redirectBody }

/-- Immutable server configuration consulted by the handlers. -/
structure Config where
  clientID : String
  clientSecret : String
  accessTTL : Int

/-- Injected collaborators: Key Authority verification and signing, the
clock, the token-to-session binding of the store, and the inputs consumed
when a new session is created. -/
structure Env where
  verifyJWT : String → Except String JwtToken
  now : Int
  mintAccess : Session → Except String String
  mintID : Session → Except String String
  mintRefresh : Session → Except String String
  sessionIDOfToken : JwtToken → Option String
  nextSessionID : String
  nextUser : String

/-- Byte view of a string as fed to `subtle.ConstantTimeCompare`; code
points stand in for UTF-8 bytes (they coincide on the ASCII parameters
compared by the handlers, and the view is injective either way). -/
def strBytes (s : String) : List Nat :=
  s.data.map Char.toNat

/-- Branch-free byte equality, result 1 when equal and 0 otherwise. -/
def constantTimeByteEq (x y : Nat) : Nat :=
  if x = y then 1 else 0

/-- Go's `subtle.ConstantTimeCompare`: returns 0 at once when the lengths
differ, otherwise ORs together the XOR of every byte pair and tests the
accumulator against 0.  The second component instruments the timing model:
it counts the byte-loop iterations executed. -/
def constantTimeCompare (x y : List Nat) : Nat × Nat :=
  if x.length ≠ y.length then (0, 0)
  else (constantTimeByteEq ((List.zipWith Nat.xor x y).foldl Nat.lor 0) 0, x.length)

/-- Compares the named form value against `value` in constant time; on
mismatch writes the caller-supplied error kind and message with status
401. `none` means the check passed. -/
def assertEqual (param value errorType errorMsg : String)
    (form : String → String) : Option HttpResponse :=
  let formValue := form param
  if (constantTimeCompare (strBytes value) (strBytes formValue)).1 = 0 then
    some (errorResponse errorType (errorMsg ++ ": " ++ formValue) 401)
  else
    none

/-- Walks the required parameters in order and reports the first whose form
value is empty as a 400 `invalid_request`. `none` means all are present. -/
def assertPresence (params : List String) (form : String → String) :
    Option HttpResponse :=
  match params with
  | [] => none
  | p :: rest =>
    if form p ≠ "" then assertPresence rest form
    else
      some (errorResponse InvalidRequest
        ("The request is missing the required parameter: " ++ p) 400)

/-- Splitter for `strings.Split(s, " ")`: single-space separator, empty
fields kept, the empty string splitting to `[""]`. -/
def splitOnSpaceAux : List Char → List Char → List String
  | [], acc => [String.mk acc.reverse]
  | c :: rest, acc =>
    if c = ' ' then String.mk acc.reverse :: splitOnSpaceAux rest []
    else splitOnSpaceAux rest (c :: acc)

/-- The scope form value split on spaces, as both `validateScope` and the
session constructor consume it. -/
def splitScopes (s : String) : List String :=
  splitOnSpaceAux s.data []

/-- Loop body of `validateScope`: the first scope outside `ScopesSupported`
yields a 400 `invalid_scope` naming it. -/
def checkScopes : List String → Option HttpResponse
  | [] => none
  | scope :: rest =>
    if ScopesSupported.contains scope then checkScopes rest
    else some (errorResponse InvalidScope ("Unsupported scope: " ++ scope) 400)

/-- Validates that every requested scope is supported. -/
def validateScope (form : String → String) : Option HttpResponse :=
  checkScopes (splitScopes (form "scope"))

/-- Modelled from the spec: Session Store `getByID`, lookup of a session by
its identifier (the authorization code). -/
def getSessionByID (st : SessionStore) (code : String) : Option Session :=
  st.sessions.find? (fun s => s.sessionID = code)

/-- The store after `session.Granted = true` is executed on the session
fetched by `code` (a pointer-write in the source, a functional update
here). -/
def grantSessionByID (st : SessionStore) (code : String) : SessionStore :=
  { sessions :=
      st.sessions.map (fun s =>
        if s.sessionID = code then { s with granted := true } else s) }

/-- Modelled from the spec: Session Store `getByToken`, lookup of the
session bound to a verified token, `none` on failure. -/
def getSessionByToken (env : Env) (st : SessionStore) (token : JwtToken) :
    Option Session :=
  match env.sessionIDOfToken token with
  | none => none
  | some sid => getSessionByID st sid

/-- Verifies a raw token string and checks its expiry against the injected
clock; on failure produces the response the handler writes. -/
def authorizeToken (env : Env) (t : String) : Except HttpResponse JwtToken :=
  match env.verifyJWT t with
  | Except.error e =>
    Except.error (errorResponse InvalidRequest ("Invalid token: " ++ e) 401)
  | Except.ok token =>
    match token.claims with
    | JwtClaims.otherClaims =>
      Except.error (internalServerError "Unable to extract token claims")
    | JwtClaims.mapClaims cs =>
      match claimsGet cs "exp" with
      | some (ClaimValue.num exp) =>
        if env.now > exp then
          Except.error (errorResponse InvalidRequest "The token is expired" 401)
        else
          Except.ok token
      | _ =>
        Except.error (internalServerError "Unable to extract token expiration")

/-- Token assembly: always mint a fresh access token; mint an ID token only
when the first requested scope is `openid`; mint a fresh refresh token only
when the grant is not `refresh_token`. -/
def setTokens (env : Env) (tr : TokenResponse) (s : Session) (grantType : String) :
    Except String TokenResponse :=
  match env.mintAccess s with
  | Except.error e => Except.error e
  | Except.ok accessTok =>
    let tr1 := { tr with accessToken := accessTok }
    let idStep : Except String TokenResponse :=
      if s.scopes.head? = some openidScope then
        match env.mintID s with
        | Except.error e => Except.error e
        | Except.ok idTok => Except.ok { tr1 with idToken := idTok }
      else Except.ok tr1
    match idStep with
    | Except.error e => Except.error e
    | Except.ok tr2 =>
      if grantType ≠ "refresh_token" then
        match env.mintRefresh s with
        | Except.error e => Except.error e
        | Except.ok refreshTok => Except.ok { tr2 with refreshToken := refreshTok }
      else Except.ok tr2

/-- Shared Token pre-check: presence of `client_id`, `client_secret` and
`grant_type`, then constant-time equality of the client credentials. -/
def validateTokenParams (cfg : Config) (form : String → String) :
    Option HttpResponse :=
  match assertPresence ["client_id", "client_secret", "grant_type"] form with
  | some r => some r
  | none =>
    match assertEqual "client_id" cfg.clientID InvalidClient
        "Invalid client id" form with
    | some r => some r
    | none =>
      assertEqual "client_secret" cfg.clientSecret InvalidClient
        "Invalid client secret" form

/-- Authorization-code grant validation: requires `code`, checks the
literal grant type, looks the session up by code, rejects an unknown or
already granted code with 401 `invalid_grant`, and otherwise marks the
session granted. -/
def validateCodeGrant (st : SessionStore) (form : String → String) :
    Except HttpResponse (Session × SessionStore) :=
  match assertPresence ["code"] form with
  | some resp => Except.error resp
  | none =>
    match assertEqual "grant_type" "authorization_code" UnsupportedGrantType
        "Invalid grant type" form with
    | some resp => Except.error resp
    | none =>
      let code := form "code"
      match getSessionByID st code with
      | none =>
        Except.error (errorResponse InvalidGrant ("Invalid code: " ++ code) 401)
      | some session =>
        if session.granted then
          Except.error (errorResponse InvalidGrant ("Invalid code: " ++ code) 401)
        else
          Except.ok ({ session with granted := true }, grantSessionByID st code)

/-- Refresh-token grant validation: requires `refresh_token`, checks the
literal grant type, verifies the submitted token (signature and expiry),
and looks up the session bound to it.  The store is not modified. -/
def validateRefreshGrant (env : Env) (st : SessionStore) (form : String → String) :
    Except HttpResponse Session :=
  match assertPresence ["refresh_token"] form with
  | some resp => Except.error resp
  | none =>
    match assertEqual "grant_type" "refresh_token" UnsupportedGrantType
        "Invalid grant type" form with
    | some resp => Except.error resp
    | none =>
      match authorizeToken env (form "refresh_token") with
      | Except.error resp => Except.error resp
      | Except.ok token =>
        match getSessionByToken env st token with
        | none =>
          Except.error (errorResponse InvalidGrant "Invalid refresh token" 401)
        | some session => Except.ok session

/-- The token endpoint: pre-checks, grant dispatch on the `grant_type`
string, then token assembly into the response envelope. -/
def Token (cfg : Config) (env : Env) (st : SessionStore) (form : String → String) :
    HttpResponse × SessionStore :=
  match validateTokenParams cfg form with
  | some resp => (resp, st)
  | none =>
    let grantType := form "grant_type"
    let step : Except HttpResponse (Session × SessionStore) :=
      if grantType = "authorization_code" then
        validateCodeGrant st form
      else if grantType = "refresh_token" then
        (validateRefreshGrant env st form).map (fun s => (s, st))
      else
        Except.error (errorResponse InvalidRequest
          ("Invalid grant type: " ++ grantType) 400)
    match step with
    | Except.error resp => (resp, st)
    | Except.ok (session, st') =>
      let tr : TokenResponse :=
        { refreshToken := form "refresh_token"
          tokenType := "bearer"
          expiresIn := cfg.accessTTL }
      match setTokens env tr session grantType with
      | Except.error e => (internalServerError e, st')
      | Except.ok tr' => (jsonTokenResponse tr', st')

/-- The authorization endpoint: presence and scope checks, client and
response-type checks, session creation (Modelled from the spec: Session
Store `create` builds the session from the split scope string, the nonce
and the next synthetic user, with a store-chosen identifier), then the 302
redirect carrying the code and state. -/
def Authorize (cfg : Config) (env : Env) (st : SessionStore)
    (form : String → String) : HttpResponse × SessionStore :=
  match assertPresence
      ["scope", "state", "client_id", "response_type", "redirect_uri"] form with
  | some resp => (resp, st)
  | none =>
    match validateScope form with
    | some resp => (resp, st)
    | none =>
      match assertEqual "client_id" cfg.clientID InvalidClient
          "Invalid client id" form with
      | some resp => (resp, st)
      | none =>
        match assertEqual "response_type" "code" UnsupportedGrantType
            "Invalid response type" form with
        | some resp => (resp, st)
        | none =>
          let session : Session :=
            { sessionID := env.nextSessionID
              scopes := splitScopes (form "scope")
              nonce := form "nonce"
              user := env.nextUser
              granted := false }
          (redirectResponse (form "redirect_uri") session.sessionID (form "state"),
            { sessions := st.sessions ++ [session] })

/-! Concrete configuration, sessions, collaborators and forms used to
evaluate the handlers on closed inputs. -/

/-- Sample configuration. -/
def cfgA : Config :=
  { clientID := "cid", clientSecret := "sec", accessTTL := 3600 }

/-- Sample ungranted session whose first scope is `openid`. -/
def sessA : Session :=
  { sessionID := "sid1", scopes := ["openid", "profile"], nonce := "",
    user := "user1", granted := false }

/-- Session holding `openid` only in second position. -/
def sessB : Session :=
  { sessA with scopes := ["profile", "openid"] }

/-- Sample store holding exactly `sessA`. -/
def storeA : SessionStore := { sessions := [sessA] }

/-- The token produced by the sample verifier for the raw string `rt-0`. -/
def tokA : JwtToken :=
  { claims := JwtClaims.mapClaims [("exp", ClaimValue.num 100)], raw := "rt-0" }

/-- Sample collaborators: every token verifies with `exp = 100`, minting
always succeeds, every token is bound to session `sid1`. -/
def envA : Env :=
  { verifyJWT := fun t =>
      Except.ok { claims := JwtClaims.mapClaims [("exp", ClaimValue.num 100)],
                  raw := t }
    now := 0
    mintAccess := fun _ => Except.ok "access-1"
    mintID := fun _ => Except.ok "id-1"
    mintRefresh := fun _ => Except.ok "refresh-1"
    sessionIDOfToken := fun _ => some "sid1"
    nextSessionID := "sid2"
    nextUser := "user2" }

/-- Same collaborators with the clock moved past the `exp` claim. -/
def envExpired : Env := { envA with now := 200 }

/-- Same collaborators but verified tokens carry no `exp` claim. -/
def envNoExp : Env :=
  { envA with
    verifyJWT := fun t =>
      Except.ok { claims := JwtClaims.mapClaims [("sub", ClaimValue.str "u")],
                  raw := t } }

/-- The token found by `envNoExp.verifyJWT` for the raw string `t0`. -/
def tokS : JwtToken :=
  { claims := JwtClaims.mapClaims [("sub", ClaimValue.str "u")], raw := "t0" }

/-- The token found by `envExpired.verifyJWT` for the raw string `t0`. -/
def tokT : JwtToken :=
  { claims := JwtClaims.mapClaims [("exp", ClaimValue.num 100)], raw := "t0" }

/-- Well-formed authorization-code token request for `sid1`. -/
def formCode : String → String := fun p =>
  if p = "client_id" then "cid"
  else if p = "client_secret" then "sec"
  else if p = "grant_type" then "authorization_code"
  else if p = "code" then "sid1"
  else ""

/-- Authorization-code token request with an empty `code`. -/
def formCodeNone : String → String := fun p =>
  if p = "client_id" then "cid"
  else if p = "client_secret" then "sec"
  else if p = "grant_type" then "authorization_code"
  else ""

/-- Well-formed refresh-token request carrying the raw token `rt-0`. -/
def formRefresh : String → String := fun p =>
  if p = "client_id" then "cid"
  else if p = "client_secret" then "sec"
  else if p = "grant_type" then "refresh_token"
  else if p = "refresh_token" then "rt-0"
  else ""

/-- Token request with an unsupported grant type. -/
def formBadGrant : String → String := fun p =>
  if p = "client_id" then "cid"
  else if p = "client_secret" then "sec"
  else if p = "grant_type" then "password"
  else ""

/-- Well-formed Authorize request. -/
def formAuth : String → String := fun p =>
  if p = "scope" then "openid profile"
  else if p = "state" then "abc"
  else if p = "client_id" then "cid"
  else if p = "response_type" then "code"
  else if p = "redirect_uri" then "https://app/cb"
  else ""

/-- Authorize request asking for an unsupported scope. -/
def formScopeBad : String → String := fun p =>
  if p = "scope" then "openid unknown" else "x"

/-- Authorize request with every parameter but `state` present. -/
def formNoState : String → String := fun p =>
  if p = "scope" then "openid" else ""

/-- Expected body of a successful code exchange against `envA`. -/
def trA : TokenResponse :=
  { accessToken := "access-1", refreshToken := "refresh-1", idToken := "id-1",
    tokenType := "bearer", expiresIn := 3600 }

/-- Expected body of a successful refresh exchange against `envA`. -/
def trR : TokenResponse :=
  { accessToken := "access-1", refreshToken := "rt-0", idToken := "id-1",
    tokenType := "bearer", expiresIn := 3600 }

/-- Expected body of assembling tokens for `sessB` (no ID token). -/
def trB : TokenResponse :=
  { accessToken := "access-1", refreshToken := "refresh-1", idToken := "",
    tokenType := "bearer", expiresIn := 3600 }

/-- Blank response envelope fed to `setTokens` in isolation. -/
def trInit0 : TokenResponse := { tokenType := "bearer", expiresIn := 3600 }

/-! Characterization of the constant-time comparison. -/

theorem nat_lor_eq_zero {a b : Nat} : Nat.lor a b = 0 ↔ a = 0 ∧ b = 0 := by
  show a ||| b = 0 ↔ a = 0 ∧ b = 0
  constructor
  · intro h
    have ht : ∀ i, (a ||| b).testBit i = false := by
      intro i; rw [h]; exact Nat.zero_testBit i
    constructor
    · apply Nat.eq_of_testBit_eq
      intro i
      have hi := ht i
      rw [Nat.testBit_lor] at hi
      rw [Nat.zero_testBit]
      exact (Bool.or_eq_false_iff.mp hi).1
    · apply Nat.eq_of_testBit_eq
      intro i
      have hi := ht i
      rw [Nat.testBit_lor] at hi
      rw [Nat.zero_testBit]
      exact (Bool.or_eq_false_iff.mp hi).2
  · rintro ⟨rfl, rfl⟩; rfl

theorem foldl_lor_eq_zero (l : List Nat) (acc : Nat) :
    l.foldl Nat.lor acc = 0 ↔ acc = 0 ∧ ∀ a ∈ l, a = 0 := by
  induction l generalizing acc with
  | nil => simp
  | cons a l ih =>
    rw [List.foldl_cons, ih]
    constructor
    · rintro ⟨h1, h3⟩
      have h2 := nat_lor_eq_zero.mp h1
      refine ⟨h2.1, ?_⟩
      intro c hc
      rcases List.mem_cons.mp hc with rfl | hc
      · exact h2.2
      · exact h3 c hc
    · rintro ⟨h1, h2⟩
      refine ⟨nat_lor_eq_zero.mpr ⟨h1, h2 a (List.mem_cons_self a l)⟩, ?_⟩
      intro c hc
      exact h2 c (List.mem_cons_of_mem a hc)

theorem zipWith_xor_eq_iff (x : List Nat) : ∀ (y : List Nat), x.length = y.length →
    ((∀ a ∈ List.zipWith Nat.xor x y, a = 0) ↔ x = y) := by
  induction x with
  | nil =>
    intro y h
    cases y with
    | nil => simp
    | cons b ys => simp at h
  | cons a xs ih =>
    intro y h
    cases y with
    | nil => simp at h
    | cons b ys =>
      have hlen : xs.length = ys.length := by simpa using h
      simp only [List.zipWith_cons_cons, List.mem_cons, List.cons.injEq]
      constructor
      · intro hall
        have ha : a ^^^ b = 0 := hall _ (Or.inl rfl)
        exact ⟨Nat.xor_eq_zero.mp ha,
          (ih ys hlen).mp (fun c hc => hall c (Or.inr hc))⟩
      · rintro ⟨rfl, rfl⟩
        rintro c (rfl | hc)
        · exact Nat.xor_self a
        · exact ((ih xs rfl).mpr rfl) c hc

theorem ctc_fst_eq_zero_iff (x y : List Nat) :
    (constantTimeCompare x y).1 = 0 ↔ x ≠ y := by
  unfold constantTimeCompare
  by_cases h : x.length = y.length
  · rw [if_neg (not_not_intro h)]
    simp only [constantTimeByteEq]
    by_cases hf : (List.zipWith Nat.xor x y).foldl Nat.lor 0 = 0
    · rw [if_pos hf]
      have hxy : x = y := (zipWith_xor_eq_iff x y h).mp
        (fun a ha => ((foldl_lor_eq_zero _ 0).mp hf).2 a ha)
      simp [hxy]
    · rw [if_neg hf]
      simp only [true_iff]
      intro hxy
      apply hf
      rw [foldl_lor_eq_zero]
      exact ⟨rfl, (zipWith_xor_eq_iff x y h).mpr hxy⟩
  · rw [if_pos h]
    simp only [true_iff]
    intro hxy
    exact h (by rw [hxy])

theorem ctc_snd_of_length_eq (x y : List Nat) (h : x.length = y.length) :
    (constantTimeCompare x y).2 = x.length := by
  unfold constantTimeCompare
  rw [if_neg (not_not_intro h)]

theorem ctc_snd_of_length_ne (x y : List Nat) (h : x.length ≠ y.length) :
    (constantTimeCompare x y).2 = 0 := by
  unfold constantTimeCompare
  rw [if_pos h]

theorem char_toNat_injective : Function.Injective Char.toNat := by
  intro a b h
  have := congrArg Char.ofNat h
  simpa [Char.ofNat_toNat] using this

theorem strBytes_inj {a b : String} (h : strBytes a = strBytes b) : a = b := by
  apply String.ext
  exact List.map_injective_iff.mpr char_toNat_injective h

theorem strBytes_eq_iff {a b : String} : strBytes a = strBytes b ↔ a = b :=
  ⟨strBytes_inj, fun h => by rw [h]⟩

theorem assertEqual_none_iff (param value errorType errorMsg : String)
    (form : String → String) :
    assertEqual param value errorType errorMsg form = none ↔ form param = value := by
  unfold assertEqual
  by_cases h : (constantTimeCompare (strBytes value) (strBytes (form param))).1 = 0
  · rw [if_pos h]
    have hne := (ctc_fst_eq_zero_iff _ _).mp h
    constructor
    · intro hc; cases hc
    · intro he; exact absurd (by rw [he]) hne
  · rw [if_neg h]
    have heq : strBytes value = strBytes (form param) := by
      by_contra hne
      exact h ((ctc_fst_eq_zero_iff _ _).mpr hne)
    simp [strBytes_inj heq]

theorem assertEqual_of_eq {param value errorType errorMsg : String}
    {form : String → String} (he : form param = value) :
    assertEqual param value errorType errorMsg form = none :=
  (assertEqual_none_iff param value errorType errorMsg form).mpr he

theorem assertEqual_of_ne {param value errorType errorMsg : String}
    {form : String → String} (hne : form param ≠ value) :
    assertEqual param value errorType errorMsg form =
      some (errorResponse errorType (errorMsg ++ ": " ++ form param) 401) := by
  unfold assertEqual
  rw [if_pos ((ctc_fst_eq_zero_iff _ _).mpr
    (fun hbe => hne (strBytes_inj hbe).symm))]

/-! Behaviour of the presence and scope validators. -/

theorem assertPresence_none_iff (ps : List String) (form : String → String) :
    assertPresence ps form = none ↔ ∀ p ∈ ps, form p ≠ "" := by
  induction ps with
  | nil => simp [assertPresence]
  | cons p rest ih =>
    simp only [assertPresence]
    by_cases hp : form p ≠ ""
    · rw [if_pos hp, ih]
      constructor
      · intro h q hq
        rcases List.mem_cons.mp hq with rfl | hq
        · exact hp
        · exact h q hq
      · intro h q hq
        exact h q (List.mem_cons_of_mem _ hq)
    · rw [if_neg hp]
      constructor
      · intro h; cases h
      · intro h
        exact absurd (h p (List.mem_cons_self p rest)) hp

theorem assertPresence_first (ps : List String) (form : String → String)
    (p : String) (h : ps.find? (fun q => form q == "") = some p) :
    assertPresence ps form =
      some (errorResponse InvalidRequest
        ("The request is missing the required parameter: " ++ p) 400) := by
  induction ps with
  | nil => simp [List.find?] at h
  | cons q rest ih =>
    by_cases hq : form q = ""
    · rw [List.find?_cons_of_pos _ (by simpa using hq)] at h
      injection h with h
      subst h
      simp only [assertPresence]
      rw [if_neg (not_not_intro hq)]
    · rw [List.find?_cons_of_neg _ (by simpa using hq)] at h
      simp only [assertPresence]
      rw [if_pos hq]
      exact ih h

theorem checkScopes_none_iff (l : List String) :
    checkScopes l = none ↔ ∀ sc ∈ l, sc ∈ ScopesSupported := by
  induction l with
  | nil => simp [checkScopes]
  | cons sc rest ih =>
    simp only [checkScopes]
    by_cases hsc : ScopesSupported.contains sc
    · rw [if_pos hsc, ih]
      constructor
      · intro h q hq
        rcases List.mem_cons.mp hq with rfl | hq
        · exact List.elem_iff.mp hsc
        · exact h q hq
      · intro h q hq
        exact h q (List.mem_cons_of_mem _ hq)
    · rw [if_neg hsc]
      constructor
      · intro h; cases h
      · intro h
        exact absurd (List.elem_iff.mpr
          (h sc (List.mem_cons_self sc rest))) hsc

theorem checkScopes_first (l : List String) (sc : String)
    (h : l.find? (fun x => !(ScopesSupported.contains x)) = some sc) :
    checkScopes l =
      some (errorResponse InvalidScope ("Unsupported scope: " ++ sc) 400) := by
  induction l with
  | nil => simp [List.find?] at h
  | cons q rest ih =>
    by_cases hq : ScopesSupported.contains q
    · rw [List.find?_cons_of_neg _ (by simpa using hq)] at h
      simp only [checkScopes]
      rw [if_pos hq]
      exact ih h
    · rw [List.find?_cons_of_pos _ (by simpa using hq)] at h
      injection h with h
      subst h
      simp only [checkScopes]
      rw [if_neg hq]

/-! Behaviour of the session-store operations. -/

theorem find_grant_list (l : List Session) (c : String) (s : Session)
    (hs : l.find? (fun x => x.sessionID = c) = some s) :
    (l.map (fun x => if x.sessionID = c then { x with granted := true } else x)).find?
        (fun x => x.sessionID = c) = some { s with granted := true } := by
  induction l with
  | nil => simp [List.find?] at hs
  | cons h t ih =>
    by_cases hc : h.sessionID = c
    · rw [List.find?_cons_of_pos _ (by simpa using hc)] at hs
      injection hs with hs
      subst hs
      simp only [List.map_cons, if_pos hc]
      exact List.find?_cons_of_pos _ (by simpa using hc)
    · rw [List.find?_cons_of_neg _ (by simpa using hc)] at hs
      simp only [List.map_cons, if_neg hc]
      rw [List.find?_cons_of_neg _ (by simpa using hc)]
      exact ih hs

theorem getSessionByID_grant (st : SessionStore) (c : String) (s : Session)
    (hs : getSessionByID st c = some s) :
    getSessionByID (grantSessionByID st c) c = some { s with granted := true } :=
  find_grant_list st.sessions c s hs

theorem mem_grantSessionByID {st : SessionStore} {c : String} {s' : Session}
    (h : s' ∈ (grantSessionByID st c).sessions) :
    s' ∈ st.sessions ∨ ∃ s, s ∈ st.sessions ∧ s' = { s with granted := true } := by
  unfold grantSessionByID at h
  simp only [List.mem_map] at h
  obtain ⟨s, hs, heq⟩ := h
  by_cases hc : s.sessionID = c
  · right
    exact ⟨s, hs, by rw [← heq, if_pos hc]⟩
  · left
    rw [← heq, if_neg hc]
    exact hs

/-! Every response built by the JSON choke points carries the no-cache
header; the validators only ever emit such responses. -/

theorem errorResponse_cacheControl (e d : String) (c : Nat) :
    (errorResponse e d c).cacheControl = some noCacheValue := rfl

theorem assertEqual_some_cache {param value et em : String}
    {form : String → String} {r : HttpResponse}
    (h : assertEqual param value et em form = some r) :
    r.cacheControl = some noCacheValue := by
  simp only [assertEqual] at h
  split at h
  · injection h with h; rw [← h]; rfl
  · cases h

theorem assertPresence_some_cache {ps : List String} {form : String → String}
    {r : HttpResponse} (h : assertPresence ps form = some r) :
    r.cacheControl = some noCacheValue := by
  induction ps with
  | nil => simp [assertPresence] at h
  | cons p rest ih =>
    simp only [assertPresence] at h
    split at h
    · exact ih h
    · injection h with h; rw [← h]; rfl

theorem checkScopes_some_cache {l : List String} {r : HttpResponse}
    (h : checkScopes l = some r) :
    r.cacheControl = some noCacheValue := by
  induction l with
  | nil => simp [checkScopes] at h
  | cons sc rest ih =>
    simp only [checkScopes] at h
    split at h
    · exact ih h
    · injection h with h; rw [← h]; rfl

theorem authorizeToken_error_cache {env : Env} {t : String} {r : HttpResponse}
    (h : authorizeToken env t = Except.error r) :
    r.cacheControl = some noCacheValue := by
  unfold authorizeToken at h
  repeat' split at h
  all_goals try cases h
  all_goals rfl

theorem validateTokenParams_some_cache {cfg : Config} {form : String → String}
    {r : HttpResponse} (h : validateTokenParams cfg form = some r) :
    r.cacheControl = some noCacheValue := by
  unfold validateTokenParams at h
  split at h
  · rename_i r0 heq
    injection h with h
    rw [← h]
    exact assertPresence_some_cache heq
  · split at h
    · rename_i r0 heq
      injection h with h
      rw [← h]
      exact assertEqual_some_cache heq
    · exact assertEqual_some_cache h

theorem validateCodeGrant_error_cache {st : SessionStore}
    {form : String → String} {r : HttpResponse}
    (h : validateCodeGrant st form = Except.error r) :
    r.cacheControl = some noCacheValue := by
  simp only [validateCodeGrant] at h
  repeat' split at h
  all_goals try cases h
  all_goals
    first
      | rfl
      | exact assertPresence_some_cache (by assumption)
      | exact assertEqual_some_cache (by assumption)

theorem validateRefreshGrant_error_cache {env : Env} {st : SessionStore}
    {form : String → String} {r : HttpResponse}
    (h : validateRefreshGrant env st form = Except.error r) :
    r.cacheControl = some noCacheValue := by
  simp only [validateRefreshGrant] at h
  repeat' split at h
  all_goals try cases h
  all_goals
    first
      | rfl
      | exact assertPresence_some_cache (by assumption)
      | exact assertEqual_some_cache (by assumption)
      | exact authorizeToken_error_cache (by assumption)

/-! Evaluation lemmas for the Token flow. -/

theorem Token_pre_fail {cfg : Config} {env : Env} {st : SessionStore}
    {form : String → String} {r : HttpResponse}
    (h : validateTokenParams cfg form = some r) :
    Token cfg env st form = (r, st) := by
  unfold Token
  rw [h]

theorem Token_dispatch {cfg : Config} {env : Env} {st : SessionStore}
    {form : String → String}
    (hvp : validateTokenParams cfg form = none) :
    Token cfg env st form =
      (match
        (if form "grant_type" = "authorization_code" then
          validateCodeGrant st form
        else if form "grant_type" = "refresh_token" then
          (validateRefreshGrant env st form).map (fun s => (s, st))
        else
          Except.error (errorResponse InvalidRequest
            ("Invalid grant type: " ++ form "grant_type") 400)) with
      | Except.error resp => (resp, st)
      | Except.ok (session, st') =>
        match setTokens env
            { refreshToken := form "refresh_token", tokenType := "bearer",
              expiresIn := cfg.accessTTL } session (form "grant_type") with
        | Except.error e => (internalServerError e, st')
        | Except.ok tr' => (jsonTokenResponse tr', st')) := by
  unfold Token
  rw [hvp]

theorem Token_code_eq {cfg : Config} {env : Env} {st : SessionStore}
    {form : String → String}
    (hvp : validateTokenParams cfg form = none)
    (hgt : form "grant_type" = "authorization_code") :
    Token cfg env st form =
      (match validateCodeGrant st form with
      | Except.error resp => (resp, st)
      | Except.ok (session, st') =>
        match setTokens env
            { refreshToken := form "refresh_token", tokenType := "bearer",
              expiresIn := cfg.accessTTL } session "authorization_code" with
        | Except.error e => (internalServerError e, st')
        | Except.ok tr' => (jsonTokenResponse tr', st')) := by
  rw [Token_dispatch hvp, hgt,
    if_pos (show ("authorization_code" : String) = "authorization_code" from rfl)]

theorem Token_refresh_eq {cfg : Config} {env : Env} {st : SessionStore}
    {form : String → String}
    (hvp : validateTokenParams cfg form = none)
    (hgt : form "grant_type" = "refresh_token") :
    Token cfg env st form =
      (match (validateRefreshGrant env st form).map (fun s => (s, st)) with
      | Except.error resp => (resp, st)
      | Except.ok (session, st') =>
        match setTokens env
            { refreshToken := form "refresh_token", tokenType := "bearer",
              expiresIn := cfg.accessTTL } session "refresh_token" with
        | Except.error e => (internalServerError e, st')
        | Except.ok tr' => (jsonTokenResponse tr', st')) := by
  rw [Token_dispatch hvp, hgt, if_neg (by decide),
    if_pos (show ("refresh_token" : String) = "refresh_token" from rfl)]

theorem Token_unknown_grant {cfg : Config} {env : Env} {st : SessionStore}
    {form : String → String}
    (hvp : validateTokenParams cfg form = none)
    (h1 : form "grant_type" ≠ "authorization_code")
    (h2 : form "grant_type" ≠ "refresh_token") :
    Token cfg env st form =
      (errorResponse InvalidRequest
        ("Invalid grant type: " ++ form "grant_type") 400, st) := by
  rw [Token_dispatch hvp, if_neg h1, if_neg h2]

theorem assertPresence_single_pass {p : String} {form : String → String}
    (h : form p ≠ "") : assertPresence [p] form = none := by
  rw [assertPresence_none_iff]
  intro q hq
  rcases List.mem_cons.mp hq with rfl | hq
  · exact h
  · cases hq

theorem validateTokenParams_pass {cfg : Config} {form : String → String}
    (h1 : form "client_id" = cfg.clientID) (h1' : cfg.clientID ≠ "")
    (h2 : form "client_secret" = cfg.clientSecret) (h2' : cfg.clientSecret ≠ "")
    (h3 : form "grant_type" ≠ "") :
    validateTokenParams cfg form = none := by
  unfold validateTokenParams
  have hp : assertPresence ["client_id", "client_secret", "grant_type"] form
      = none := by
    rw [assertPresence_none_iff]
    intro p hp
    rcases List.mem_cons.mp hp with rfl | hp
    · rw [h1]; exact h1'
    rcases List.mem_cons.mp hp with rfl | hp
    · rw [h2]; exact h2'
    rcases List.mem_cons.mp hp with rfl | hp
    · exact h3
    · cases hp
  rw [hp, assertEqual_of_eq h1, assertEqual_of_eq h2]

theorem validateCodeGrant_ok {st : SessionStore} {form : String → String}
    (hcode : form "code" ≠ "")
    (hgt : form "grant_type" = "authorization_code") {s : Session}
    (hs : getSessionByID st (form "code") = some s) (hng : s.granted = false) :
    validateCodeGrant st form =
      Except.ok ({ s with granted := true }, grantSessionByID st (form "code")) := by
  simp only [validateCodeGrant]
  rw [assertPresence_single_pass hcode, assertEqual_of_eq hgt, hs]
  simp [hng]

theorem validateCodeGrant_granted {st : SessionStore} {form : String → String}
    (hcode : form "code" ≠ "")
    (hgt : form "grant_type" = "authorization_code") {s : Session}
    (hs : getSessionByID st (form "code") = some s) (hg : s.granted = true) :
    validateCodeGrant st form =
      Except.error (errorResponse InvalidGrant
        ("Invalid code: " ++ form "code") 401) := by
  simp only [validateCodeGrant]
  rw [assertPresence_single_pass hcode, assertEqual_of_eq hgt, hs]
  simp [hg]

theorem validateCodeGrant_unknown {st : SessionStore} {form : String → String}
    (hcode : form "code" ≠ "")
    (hgt : form "grant_type" = "authorization_code")
    (hs : getSessionByID st (form "code") = none) :
    validateCodeGrant st form =
      Except.error (errorResponse InvalidGrant
        ("Invalid code: " ++ form "code") 401) := by
  simp only [validateCodeGrant]
  rw [assertPresence_single_pass hcode, assertEqual_of_eq hgt, hs]

theorem validateRefreshGrant_ok {env : Env} {st : SessionStore}
    {form : String → String} (hrt : form "refresh_token" ≠ "")
    (hgt : form "grant_type" = "refresh_token") {tok : JwtToken}
    (htok : authorizeToken env (form "refresh_token") = Except.ok tok)
    {s : Session} (hsess : getSessionByToken env st tok = some s) :
    validateRefreshGrant env st form = Except.ok s := by
  simp only [validateRefreshGrant]
  rw [assertPresence_single_pass hrt, assertEqual_of_eq hgt, htok]
  simp [hsess]

/-! Evaluation lemmas for the Authorize flow and the header invariants. -/

theorem Authorize_pre_fail {cfg : Config} {env : Env} {st : SessionStore}
    {form : String → String} {r : HttpResponse}
    (h : assertPresence
      ["scope", "state", "client_id", "response_type", "redirect_uri"] form
        = some r) :
    Authorize cfg env st form = (r, st) := by
  unfold Authorize
  rw [h]

theorem Authorize_scope_fail {cfg : Config} {env : Env} {st : SessionStore}
    {form : String → String} {r : HttpResponse}
    (hp : assertPresence
      ["scope", "state", "client_id", "response_type", "redirect_uri"] form
        = none)
    (h : validateScope form = some r) :
    Authorize cfg env st form = (r, st) := by
  unfold Authorize
  rw [hp, h]

theorem Authorize_shape (cfg : Config) (env : Env) (st : SessionStore)
    (form : String → String) :
    ((Authorize cfg env st form).1.cacheControl = some noCacheValue ∧
      (Authorize cfg env st form).2 = st) ∨
    ((Authorize cfg env st form).1.status = 302 ∧
      (Authorize cfg env st form).1.cacheControl = none ∧
      (Authorize cfg env st form).2.sessions = st.sessions ++
        [{ sessionID := env.nextSessionID,
           scopes := splitScopes (form "scope"),
           nonce := form "nonce", user := env.nextUser, granted := false }]) := by
  simp only [Authorize]
  split
  · rename_i r heq
    exact Or.inl ⟨assertPresence_some_cache heq, rfl⟩
  · split
    · rename_i r heq
      simp only [validateScope] at heq
      exact Or.inl ⟨checkScopes_some_cache heq, rfl⟩
    · split
      · rename_i r heq
        exact Or.inl ⟨assertEqual_some_cache heq, rfl⟩
      · split
        · rename_i r heq
          exact Or.inl ⟨assertEqual_some_cache heq, rfl⟩
        · exact Or.inr ⟨rfl, rfl, rfl⟩

theorem Token_cacheControl (cfg : Config) (env : Env) (st : SessionStore)
    (form : String → String) :
    ((Token cfg env st form).1).cacheControl = some noCacheValue := by
  rcases hvp : validateTokenParams cfg form with _ | r
  · rw [Token_dispatch hvp]
    split
    · rename_i resp heq
      split at heq
      · exact validateCodeGrant_error_cache heq
      · split at heq
        · rcases hv : validateRefreshGrant env st form with r0 | s0
          · rw [hv] at heq
            simp only [Except.map] at heq
            injection heq with heq
            rw [← heq]
            exact validateRefreshGrant_error_cache hv
          · rw [hv] at heq
            simp only [Except.map] at heq
            cases heq
        · cases heq
          rfl
    · rename_i p heq
      split
      · rfl
      · rfl
  · rw [Token_pre_fail hvp]
    exact validateTokenParams_some_cache hvp

/-! Field-level behaviour of the token assembly. -/

theorem setTokens_inversion {env : Env} {tr : TokenResponse} {s : Session}
    {gt : String} {tr' : TokenResponse}
    (h : setTokens env tr s gt = Except.ok tr') :
    ∃ accessTok tr2,
      env.mintAccess s = Except.ok accessTok ∧
      ((s.scopes.head? = some openidScope ∧
        ∃ idTok, env.mintID s = Except.ok idTok ∧
          tr2 = { tr with accessToken := accessTok, idToken := idTok }) ∨
       (s.scopes.head? ≠ some openidScope ∧
        tr2 = { tr with accessToken := accessTok })) ∧
      ((gt ≠ "refresh_token" ∧
        ∃ rTok, env.mintRefresh s = Except.ok rTok ∧
          tr' = { tr2 with refreshToken := rTok }) ∨
       (gt = "refresh_token" ∧ tr' = tr2)) := by
  simp only [setTokens] at h
  rcases ha : env.mintAccess s with e | accessTok <;> simp only [ha] at h
  · cases h
  by_cases hd : s.scopes.head? = some openidScope
  · simp only [if_pos hd] at h
    rcases hi : env.mintID s with e | idTok <;> simp only [hi] at h
    · cases h
    by_cases hg : gt ≠ "refresh_token"
    · simp only [if_pos hg] at h
      rcases hr : env.mintRefresh s with e | rTok <;> simp only [hr] at h
      · cases h
      injection h with h
      exact ⟨accessTok, _, rfl, Or.inl ⟨hd, idTok, rfl, rfl⟩,
        Or.inl ⟨hg, rTok, rfl, h.symm⟩⟩
    · simp only [if_neg hg] at h
      injection h with h
      exact ⟨accessTok, _, rfl, Or.inl ⟨hd, idTok, rfl, rfl⟩,
        Or.inr ⟨not_not.mp hg, h.symm⟩⟩
  · simp only [if_neg hd] at h
    by_cases hg : gt ≠ "refresh_token"
    · simp only [if_pos hg] at h
      rcases hr : env.mintRefresh s with e | rTok <;> simp only [hr] at h
      · cases h
      injection h with h
      exact ⟨accessTok, _, rfl, Or.inr ⟨hd, rfl⟩, Or.inl ⟨hg, rTok, rfl, h.symm⟩⟩
    · simp only [if_neg hg] at h
      injection h with h
      exact ⟨accessTok, _, rfl, Or.inr ⟨hd, rfl⟩, Or.inr ⟨not_not.mp hg, h.symm⟩⟩

theorem setTokens_access {env : Env} {tr : TokenResponse} {s : Session}
    {gt : String} {tr' : TokenResponse}
    (h : setTokens env tr s gt = Except.ok tr') :
    env.mintAccess s = Except.ok tr'.accessToken := by
  obtain ⟨a, tr2, ha, hid, hrt⟩ := setTokens_inversion h
  rcases hrt with ⟨hg, rTok, hr, rfl⟩ | ⟨hg, rfl⟩ <;>
    rcases hid with ⟨hd, idTok, hi, rfl⟩ | ⟨hd, rfl⟩ <;>
    simpa using ha

theorem setTokens_refresh_same {env : Env} {tr : TokenResponse} {s : Session}
    {gt : String} {tr' : TokenResponse}
    (h : setTokens env tr s gt = Except.ok tr')
    (hgt : gt = "refresh_token") :
    tr'.refreshToken = tr.refreshToken := by
  obtain ⟨a, tr2, ha, hid, hrt⟩ := setTokens_inversion h
  rcases hrt with ⟨hg, rTok, hr, rfl⟩ | ⟨hg, rfl⟩
  · exact absurd hgt hg
  · rcases hid with ⟨hd, idTok, hi, rfl⟩ | ⟨hd, rfl⟩ <;> rfl

theorem setTokens_refresh_fresh {env : Env} {tr : TokenResponse} {s : Session}
    {gt : String} {tr' : TokenResponse}
    (h : setTokens env tr s gt = Except.ok tr')
    (hgt : gt ≠ "refresh_token") :
    env.mintRefresh s = Except.ok tr'.refreshToken := by
  obtain ⟨a, tr2, ha, hid, hrt⟩ := setTokens_inversion h
  rcases hrt with ⟨hg, rTok, hr, rfl⟩ | ⟨hg, rfl⟩
  · rcases hid with ⟨hd, idTok, hi, rfl⟩ | ⟨hd, rfl⟩ <;> simpa using hr
  · exact absurd hg hgt

theorem setTokens_id_openid {env : Env} {tr : TokenResponse} {s : Session}
    {gt : String} {tr' : TokenResponse}
    (h : setTokens env tr s gt = Except.ok tr')
    (hd : s.scopes.head? = some openidScope) :
    env.mintID s = Except.ok tr'.idToken := by
  obtain ⟨a, tr2, ha, hid, hrt⟩ := setTokens_inversion h
  rcases hid with ⟨hd2, idTok, hi, rfl⟩ | ⟨hd2, rfl⟩
  · rcases hrt with ⟨hg, rTok, hr, rfl⟩ | ⟨hg, rfl⟩ <;> simpa using hi
  · exact absurd hd hd2

theorem setTokens_id_none {env : Env} {tr : TokenResponse} {s : Session}
    {gt : String} {tr' : TokenResponse}
    (h : setTokens env tr s gt = Except.ok tr')
    (hd : s.scopes.head? ≠ some openidScope) :
    tr'.idToken = tr.idToken := by
  obtain ⟨a, tr2, ha, hid, hrt⟩ := setTokens_inversion h
  rcases hid with ⟨hd2, idTok, hi, rfl⟩ | ⟨hd2, rfl⟩
  · exact absurd hd2 hd
  · rcases hrt with ⟨hg, rTok, hr, rfl⟩ | ⟨hg, rfl⟩ <;> rfl

/-! Success and failure composition lemmas for the Token flow. -/

theorem Token_code_success {cfg : Config} {env : Env} {st : SessionStore}
    {form : String → String}
    (hvp : validateTokenParams cfg form = none)
    (hgt : form "grant_type" = "authorization_code")
    {s : Session} {st' : SessionStore}
    (hcg : validateCodeGrant st form = Except.ok (s, st'))
    {tr' : TokenResponse}
    (hset : setTokens env
      { refreshToken := form "refresh_token", tokenType := "bearer",
        expiresIn := cfg.accessTTL } s "authorization_code" = Except.ok tr') :
    Token cfg env st form = (jsonTokenResponse tr', st') := by
  rw [Token_code_eq hvp hgt, hcg]
  simp only [hset]

theorem Token_code_fail {cfg : Config} {env : Env} {st : SessionStore}
    {form : String → String} {r : HttpResponse}
    (hvp : validateTokenParams cfg form = none)
    (hgt : form "grant_type" = "authorization_code")
    (hcg : validateCodeGrant st form = Except.error r) :
    Token cfg env st form = (r, st) := by
  rw [Token_code_eq hvp hgt, hcg]

theorem Token_refresh_success {cfg : Config} {env : Env} {st : SessionStore}
    {form : String → String}
    (hvp : validateTokenParams cfg form = none)
    (hgt : form "grant_type" = "refresh_token")
    {s : Session} (hvr : validateRefreshGrant env st form = Except.ok s)
    {tr' : TokenResponse}
    (hset : setTokens env
      { refreshToken := form "refresh_token", tokenType := "bearer",
        expiresIn := cfg.accessTTL } s "refresh_token" = Except.ok tr') :
    Token cfg env st form = (jsonTokenResponse tr', st) := by
  rw [Token_refresh_eq hvp hgt, hvr]
  simp only [Except.map, hset]

theorem Token_refresh_fail {cfg : Config} {env : Env} {st : SessionStore}
    {form : String → String} {r : HttpResponse}
    (hvp : validateTokenParams cfg form = none)
    (hgt : form "grant_type" = "refresh_token")
    (hvr : validateRefreshGrant env st form = Except.error r) :
    Token cfg env st form = (r, st) := by
  rw [Token_refresh_eq hvp hgt, hvr]
  simp only [Except.map]

theorem validateTokenParams_presence_fail {cfg : Config}
    {form : String → String} {r : HttpResponse}
    (h : assertPresence ["client_id", "client_secret", "grant_type"] form
      = some r) :
    validateTokenParams cfg form = some r := by
  unfold validateTokenParams
  rw [h]

theorem validateCodeGrant_presence_fail {st : SessionStore}
    {form : String → String} {r : HttpResponse}
    (h : assertPresence ["code"] form = some r) :
    validateCodeGrant st form = Except.error r := by
  simp only [validateCodeGrant]
  rw [h]

theorem validateRefreshGrant_presence_fail {env : Env} {st : SessionStore}
    {form : String → String} {r : HttpResponse}
    (h : assertPresence ["refresh_token"] form = some r) :
    validateRefreshGrant env st form = Except.error r := by
  simp only [validateRefreshGrant]
  rw [h]

theorem validateCodeGrant_ok_store {st : SessionStore} {form : String → String}
    {session : Session} {st' : SessionStore}
    (h : validateCodeGrant st form = Except.ok (session, st')) :
    st' = grantSessionByID st (form "code") := by
  simp only [validateCodeGrant] at h
  repeat' split at h
  all_goals try cases h
  all_goals rfl

theorem Token_store_refresh {cfg : Config} {env : Env} {st : SessionStore}
    {form : String → String} (hgt : form "grant_type" = "refresh_token") :
    (Token cfg env st form).2 = st := by
  rcases hvp : validateTokenParams cfg form with _ | r
  · rw [Token_refresh_eq hvp hgt]
    split
    · rfl
    · rename_i session st' heq
      have hst : st' = st := by
        rcases hv : validateRefreshGrant env st form with r0 | s0 <;>
          rw [hv] at heq <;> simp only [Except.map] at heq
        · cases heq
        · injection heq with h
          injection h with h1 h2
          exact h2.symm
      rw [hst]
      split <;> rfl
  · rw [Token_pre_fail hvp]

theorem Token_store_frame (cfg : Config) (env : Env) (st : SessionStore)
    (form : String → String) :
    ∀ s' ∈ (Token cfg env st form).2.sessions,
      s' ∈ st.sessions ∨
      (∃ s, s ∈ st.sessions ∧ s' = { s with granted := true } ∧
        form "grant_type" = "authorization_code") := by
  intro s' hs'
  rcases hvp : validateTokenParams cfg form with _ | r
  · by_cases hgt : form "grant_type" = "authorization_code"
    · rw [Token_code_eq hvp hgt] at hs'
      revert hs'
      split
      · intro hs'; exact Or.inl hs'
      · rename_i session st' heq
        have hst := validateCodeGrant_ok_store heq
        subst hst
        split
        · intro hs'
          rcases mem_grantSessionByID hs' with h | ⟨s, hsm, hse⟩
          · exact Or.inl h
          · exact Or.inr ⟨s, hsm, hse, hgt⟩
        · intro hs'
          rcases mem_grantSessionByID hs' with h | ⟨s, hsm, hse⟩
          · exact Or.inl h
          · exact Or.inr ⟨s, hsm, hse, hgt⟩
    · by_cases hgt2 : form "grant_type" = "refresh_token"
      · rw [Token_store_refresh hgt2] at hs'
        exact Or.inl hs'
      · rw [Token_unknown_grant hvp hgt hgt2] at hs'
        exact Or.inl hs'
  · rw [Token_pre_fail hvp] at hs'
    exact Or.inl hs'

/-! The claims. -/

/-- C1: Authorization codes are single-use.  A first Token request with
`grant_type=authorization_code` and a session's code succeeds and sets the
session's Granted flag to true; every subsequent Token request with the
same code (session already granted), and every request with a code unknown
to the store, responds 401 with error kind `invalid_grant`; the session
transitions from ungranted to granted at most once. -/
theorem C1_code_single_use (cfg : Config) (env : Env) (st : SessionStore)
    (form : String → String)
    (h1 : form "client_id" = cfg.clientID) (h1' : cfg.clientID ≠ "")
    (h2 : form "client_secret" = cfg.clientSecret) (h2' : cfg.clientSecret ≠ "")
    (hgt : form "grant_type" = "authorization_code") (hcode : form "code" ≠ "")
    (s : Session) (hs : getSessionByID st (form "code") = some s)
    (hng : s.granted = false) (tr' : TokenResponse)
    (hset : setTokens env
      { refreshToken := form "refresh_token", tokenType := "bearer",
        expiresIn := cfg.accessTTL } { s with granted := true }
      "authorization_code" = Except.ok tr') :
    (Token cfg env st form).1 = jsonTokenResponse tr' ∧
    getSessionByID (Token cfg env st form).2 (form "code") =
      some { s with granted := true } ∧
    Token cfg env (Token cfg env st form).2 form =
      (errorResponse InvalidGrant ("Invalid code: " ++ form "code") 401,
        (Token cfg env st form).2) ∧
    (∀ st0 : SessionStore, getSessionByID st0 (form "code") = none →
      Token cfg env st0 form =
        (errorResponse InvalidGrant ("Invalid code: " ++ form "code") 401,
          st0)) := by
  have hvp : validateTokenParams cfg form = none :=
    validateTokenParams_pass h1 h1' h2 h2' (by rw [hgt]; decide)
  have hfirst : Token cfg env st form =
      (jsonTokenResponse tr', grantSessionByID st (form "code")) :=
    Token_code_success hvp hgt (validateCodeGrant_ok hcode hgt hs hng) hset
  have hsecond : Token cfg env (grantSessionByID st (form "code")) form =
      (errorResponse InvalidGrant ("Invalid code: " ++ form "code") 401,
        grantSessionByID st (form "code")) :=
    Token_code_fail hvp hgt
      (validateCodeGrant_granted hcode hgt (getSessionByID_grant st _ s hs) rfl)
  refine ⟨?_, ?_, ?_, ?_⟩
  · rw [hfirst]
  · rw [hfirst]
    exact getSessionByID_grant st _ s hs
  · rw [hfirst]
    exact hsecond
  · intro st0 h0
    exact Token_code_fail hvp hgt (validateCodeGrant_unknown hcode hgt h0)

/-- C1 witness: on the sample store, the first code exchange succeeds and
grants the session, the repeated exchange fails 401 `invalid_grant` without
touching the store, and the same code against an empty store also fails
401 `invalid_grant`. -/
theorem C1_witness :
    (Token cfgA envA storeA formCode).1 = jsonTokenResponse trA ∧
    getSessionByID (Token cfgA envA storeA formCode).2 (formCode "code") =
      some { sessA with granted := true } ∧
    Token cfgA envA (Token cfgA envA storeA formCode).2 formCode =
      (errorResponse InvalidGrant ("Invalid code: " ++ formCode "code") 401,
        (Token cfgA envA storeA formCode).2) ∧
    Token cfgA envA { sessions := [] } formCode =
      (errorResponse InvalidGrant ("Invalid code: " ++ formCode "code") 401,
        { sessions := [] }) :=
  have h := C1_code_single_use cfgA envA storeA formCode (by decide) (by decide)
    (by decide) (by decide) (by decide) (by decide) sessA (by decide)
    (by decide) trA rfl
  ⟨h.1, h.2.1, h.2.2.1, h.2.2.2 { sessions := [] } (by decide)⟩

/-- C2: a successful refresh-token exchange echoes back exactly the
submitted refresh token and mints a fresh access token; across both
grants, token assembly always mints a fresh access token, and it mints a
fresh refresh token if and only if the grant type is not
`refresh_token`. -/
theorem C2_refresh_token_echo (cfg : Config) (env : Env) (st : SessionStore)
    (form : String → String)
    (h1 : form "client_id" = cfg.clientID) (h1' : cfg.clientID ≠ "")
    (h2 : form "client_secret" = cfg.clientSecret) (h2' : cfg.clientSecret ≠ "")
    (hgt : form "grant_type" = "refresh_token") (hrt : form "refresh_token" ≠ "")
    (tok : JwtToken)
    (htok : authorizeToken env (form "refresh_token") = Except.ok tok)
    (s : Session) (hsess : getSessionByToken env st tok = some s)
    (tr' : TokenResponse)
    (hset : setTokens env
      { refreshToken := form "refresh_token", tokenType := "bearer",
        expiresIn := cfg.accessTTL } s "refresh_token" = Except.ok tr') :
    ((Token cfg env st form).1 = jsonTokenResponse tr' ∧
      tr'.refreshToken = form "refresh_token" ∧
      env.mintAccess s = Except.ok tr'.accessToken) ∧
    (∀ (tr0 : TokenResponse) (s0 : Session) (gt : String) (tr1 : TokenResponse),
      setTokens env tr0 s0 gt = Except.ok tr1 →
      env.mintAccess s0 = Except.ok tr1.accessToken ∧
      (gt = "refresh_token" → tr1.refreshToken = tr0.refreshToken) ∧
      (gt ≠ "refresh_token" →
        env.mintRefresh s0 = Except.ok tr1.refreshToken)) := by
  have hvp : validateTokenParams cfg form = none :=
    validateTokenParams_pass h1 h1' h2 h2' (by rw [hgt]; decide)
  have hT := Token_refresh_success hvp hgt
    (validateRefreshGrant_ok hrt hgt htok hsess) hset
  refine ⟨⟨by rw [hT], setTokens_refresh_same hset rfl, setTokens_access hset⟩, ?_⟩
  intro tr0 s0 gt tr1 hst
  exact ⟨setTokens_access hst, fun hg => setTokens_refresh_same hst hg,
    fun hg => setTokens_refresh_fresh hst hg⟩

/-- C2 witness: the sample refresh exchange returns a body whose
refresh token is the submitted `rt-0` and whose access token is the one
freshly minted by the collaborator. -/
theorem C2_witness :
    (Token cfgA envA storeA formRefresh).1 = jsonTokenResponse trR ∧
    trR.refreshToken = formRefresh "refresh_token" ∧
    envA.mintAccess sessA = Except.ok trR.accessToken :=
  (C2_refresh_token_echo cfgA envA storeA formRefresh (by decide) (by decide)
    (by decide) (by decide) (by decide) (by decide) tokA rfl sessA
    (by decide) trR rfl).1

/-- C3: token assembly attaches an ID token exactly when the session's
scope sequence is non-empty and its first element is the string `openid`;
any session whose first scope is not `openid` (even if `openid` occurs
later) keeps the empty ID-token field. -/
theorem C3_id_token_first_scope (env : Env) (tr : TokenResponse) (s : Session)
    (gt : String) (tr' : TokenResponse)
    (h : setTokens env tr s gt = Except.ok tr') (hinit : tr.idToken = "") :
    (s.scopes.head? = some openidScope →
      env.mintID s = Except.ok tr'.idToken) ∧
    (s.scopes.head? ≠ some openidScope → tr'.idToken = "") :=
  ⟨fun hd => setTokens_id_openid h hd,
   fun hd => by rw [setTokens_id_none h hd, hinit]⟩

/-- C3 witness: assembling tokens for a session whose first scope is
`openid` stores the minted ID token, and for a session carrying `openid`
only in second position the ID-token field stays empty. -/
theorem C3_witness :
    envA.mintID sessA = Except.ok trA.idToken ∧ trB.idToken = "" :=
  ⟨(C3_id_token_first_scope envA trInit0 sessA "authorization_code" trA
      rfl (by decide)).1 (by decide),
   (C3_id_token_first_scope envA trInit0 sessB "authorization_code" trB
      rfl (by decide)).2 (by decide)⟩

/-- C4 (counterexample): the comparison is not constant time regardless of
input length: comparing the 4-byte expected value `code` against a 1-byte
submission executes 0 byte-loop iterations (immediate return on the length
mismatch), while a 4-byte submission executes 4. -/
theorem C4_counterexample :
    (constantTimeCompare (strBytes "code") (strBytes "c")).2 = 0 ∧
    (constantTimeCompare (strBytes "code") (strBytes "coda")).2 = 4 ∧
    (constantTimeCompare (strBytes "code") (strBytes "c")).2 ≠
      (constantTimeCompare (strBytes "code") (strBytes "coda")).2 := by
  decide

/-- C4 (amended): when the submitted value has the same byte length as the
expected value, the comparison examines every byte with no early exit on a
byte mismatch; on a length mismatch it returns immediately without
examining any byte; equality holds exactly on matching values, and any
mismatch yields the caller-supplied error kind with HTTP status 401. -/
theorem C4_constant_time_equal_length (param value errorType errorMsg : String)
    (form : String → String) :
    ((strBytes value).length = (strBytes (form param)).length →
      (constantTimeCompare (strBytes value) (strBytes (form param))).2 =
        (strBytes value).length) ∧
    ((strBytes value).length ≠ (strBytes (form param)).length →
      (constantTimeCompare (strBytes value) (strBytes (form param))).2 = 0) ∧
    (assertEqual param value errorType errorMsg form = none ↔
      form param = value) ∧
    (form param ≠ value →
      assertEqual param value errorType errorMsg form =
        some (errorResponse errorType (errorMsg ++ ": " ++ form param) 401)) :=
  ⟨fun h => ctc_snd_of_length_eq _ _ h, fun h => ctc_snd_of_length_ne _ _ h,
   assertEqual_none_iff param value errorType errorMsg form,
   fun h => assertEqual_of_ne h⟩

/-- C4 witness: on an equal-length input the loop runs over every byte of
the expected value, and a mismatching value produces the supplied kind
with status 401. -/
theorem C4_witness :
    (constantTimeCompare (strBytes "cid") (strBytes (formCode "client_id"))).2 =
      (strBytes "cid").length ∧
    assertEqual "grant_type" "cid" InvalidClient "Invalid client id" formCode =
      some (errorResponse InvalidClient
        ("Invalid client id" ++ ": " ++ formCode "grant_type") 401) :=
  ⟨(C4_constant_time_equal_length "client_id" "cid" InvalidClient
      "Invalid client id" formCode).1 (by decide),
   (C4_constant_time_equal_length "grant_type" "cid" InvalidClient
      "Invalid client id" formCode).2.2.2 (by decide)⟩

/-- C5: a bearer token whose signature verifies but whose `exp` claim lies
in the past relative to the injected clock is rejected 401
`invalid_request` with description `The token is expired`; an `exp` claim
that is missing or not a number yields the 500 internal error instead. -/
theorem C5_bearer_expiry (env : Env) (t : String) (tok : JwtToken) (cs : Claims)
    (hv : env.verifyJWT t = Except.ok tok)
    (hc : tok.claims = JwtClaims.mapClaims cs) :
    (∀ e : Int, claimsGet cs "exp" = some (ClaimValue.num e) → e < env.now →
      authorizeToken env t =
        Except.error (errorResponse InvalidRequest "The token is expired" 401)) ∧
    ((∀ e : Int, claimsGet cs "exp" ≠ some (ClaimValue.num e)) →
      authorizeToken env t =
        Except.error (internalServerError "Unable to extract token expiration")) := by
  constructor
  · intro e he hlt
    simp only [authorizeToken, hv, hc, he]
    rw [if_pos hlt]
  · intro hne
    simp only [authorizeToken, hv, hc]

/-- C5 witness: against the expired clock the sample token is rejected as
expired, and a token carrying no `exp` claim produces the 500 internal
error. -/
theorem C5_witness :
    authorizeToken envExpired "t0" =
      Except.error (errorResponse InvalidRequest "The token is expired" 401) ∧
    authorizeToken envNoExp "t0" =
      Except.error (internalServerError "Unable to extract token expiration") :=
  ⟨(C5_bearer_expiry envExpired "t0" tokT [("exp", ClaimValue.num 100)]
      rfl rfl).1 100 rfl (by decide),
   (C5_bearer_expiry envNoExp "t0" tokS [("sub", ClaimValue.str "u")]
      rfl rfl).2 (fun e h => nomatch h)⟩

/-- C6: once the client-credential pre-check passes, a present grant_type
that is neither `authorization_code` nor `refresh_token` yields 400 with
kind `invalid_request` naming the submitted grant type — a kind distinct
from the `unsupported_grant_type` used inside the grant validators. -/
theorem C6_unknown_grant_type (cfg : Config) (env : Env) (st : SessionStore)
    (form : String → String)
    (h1 : form "client_id" = cfg.clientID) (h1' : cfg.clientID ≠ "")
    (h2 : form "client_secret" = cfg.clientSecret) (h2' : cfg.clientSecret ≠ "")
    (h3 : form "grant_type" ≠ "")
    (hne1 : form "grant_type" ≠ "authorization_code")
    (hne2 : form "grant_type" ≠ "refresh_token") :
    Token cfg env st form =
      (errorResponse InvalidRequest
        ("Invalid grant type: " ++ form "grant_type") 400, st) ∧
    InvalidRequest ≠ UnsupportedGrantType :=
  ⟨Token_unknown_grant (validateTokenParams_pass h1 h1' h2 h2' h3) hne1 hne2,
   by decide⟩

/-- C6 witness: the sample request with `grant_type=password` is answered
400 `invalid_request` naming `password`. -/
theorem C6_witness :
    Token cfgA envA storeA formBadGrant =
      (errorResponse InvalidRequest
        ("Invalid grant type: " ++ formBadGrant "grant_type") 400, storeA) :=
  (C6_unknown_grant_type cfgA envA storeA formBadGrant (by decide) (by decide)
    (by decide) (by decide) (by decide) (by decide) (by decide)).1

/-- C7: an Authorize request (with all required parameters present) whose
scope parameter contains a scope outside the supported set is answered 400
`invalid_scope` naming the first offending scope; the scope check passes
exactly when every requested scope is supported. -/
theorem C7_scope_validation (cfg : Config) (env : Env) (st : SessionStore)
    (form : String → String)
    (hp : assertPresence
      ["scope", "state", "client_id", "response_type", "redirect_uri"] form
        = none) :
    (∀ sc : String,
      (splitScopes (form "scope")).find?
          (fun x => !(ScopesSupported.contains x)) = some sc →
      Authorize cfg env st form =
        (errorResponse InvalidScope ("Unsupported scope: " ++ sc) 400, st)) ∧
    (validateScope form = none ↔
      ∀ sc ∈ splitScopes (form "scope"), sc ∈ ScopesSupported) := by
  constructor
  · intro sc hfind
    refine Authorize_scope_fail hp ?_
    simp only [validateScope]
    exact checkScopes_first _ sc hfind
  · exact checkScopes_none_iff _

/-- C7 witness: `scope=openid unknown` is rejected 400 `invalid_scope`
naming `unknown`, and the scope check passes on `openid profile`. -/
theorem C7_witness :
    Authorize cfgA envA storeA formScopeBad =
      (errorResponse InvalidScope ("Unsupported scope: " ++ "unknown") 400,
        storeA) ∧
    validateScope formAuth = none :=
  ⟨(C7_scope_validation cfgA envA storeA formScopeBad (by decide)).1
      "unknown" (by decide),
   (C7_scope_validation cfgA envA storeA formAuth (by decide)).2.mpr
      (by decide)⟩

/-- C8: a required form parameter that is empty makes Authorize or Token
answer 400 `invalid_request` naming the first missing parameter, with the
session store left untouched; the grant-specific `code` and
`refresh_token` parameters behave the same way after the client
pre-check. -/
theorem C8_missing_parameters (cfg : Config) (env : Env) (st : SessionStore)
    (form : String → String) :
    (∀ p : String,
      (["scope", "state", "client_id", "response_type", "redirect_uri"].find?
        (fun q => form q == "")) = some p →
      Authorize cfg env st form =
        (errorResponse InvalidRequest
          ("The request is missing the required parameter: " ++ p) 400, st)) ∧
    (∀ p : String,
      (["client_id", "client_secret", "grant_type"].find?
        (fun q => form q == "")) = some p →
      Token cfg env st form =
        (errorResponse InvalidRequest
          ("The request is missing the required parameter: " ++ p) 400, st)) ∧
    (form "client_id" = cfg.clientID → cfg.clientID ≠ "" →
      form "client_secret" = cfg.clientSecret → cfg.clientSecret ≠ "" →
      form "grant_type" = "authorization_code" → form "code" = "" →
      Token cfg env st form =
        (errorResponse InvalidRequest
          ("The request is missing the required parameter: " ++ "code") 400,
          st)) ∧
    (form "client_id" = cfg.clientID → cfg.clientID ≠ "" →
      form "client_secret" = cfg.clientSecret → cfg.clientSecret ≠ "" →
      form "grant_type" = "refresh_token" → form "refresh_token" = "" →
      Token cfg env st form =
        (errorResponse InvalidRequest
          ("The request is missing the required parameter: " ++
            "refresh_token") 400, st)) := by
  refine ⟨?_, ?_, ?_, ?_⟩
  · intro p hfind
    exact Authorize_pre_fail (assertPresence_first _ form p hfind)
  · intro p hfind
    exact Token_pre_fail
      (validateTokenParams_presence_fail (assertPresence_first _ form p hfind))
  · intro h1 h1' h2 h2' hgt hcode
    have hvp : validateTokenParams cfg form = none :=
      validateTokenParams_pass h1 h1' h2 h2' (by rw [hgt]; decide)
    have hpc : assertPresence ["code"] form =
        some (errorResponse InvalidRequest
          ("The request is missing the required parameter: " ++ "code") 400) := by
      simp only [assertPresence]
      rw [if_neg (not_not_intro hcode)]
    exact Token_code_fail hvp hgt (validateCodeGrant_presence_fail hpc)
  · intro h1 h1' h2 h2' hgt hrt
    have hvp : validateTokenParams cfg form = none :=
      validateTokenParams_pass h1 h1' h2 h2' (by rw [hgt]; decide)
    have hpr : assertPresence ["refresh_token"] form =
        some (errorResponse InvalidRequest
          ("The request is missing the required parameter: " ++
            "refresh_token") 400) := by
      simp only [assertPresence]
      rw [if_neg (not_not_intro hrt)]
    exact Token_refresh_fail hvp hgt (validateRefreshGrant_presence_fail hpr)

/-- C8 witness: an Authorize request without `state` is answered 400
naming `state` with the store unchanged, and a code grant without `code`
is answered 400 naming `code` with the store unchanged. -/
theorem C8_witness :
    Authorize cfgA envA storeA formNoState =
      (errorResponse InvalidRequest
        ("The request is missing the required parameter: " ++ "state") 400,
        storeA) ∧
    Token cfgA envA storeA formCodeNone =
      (errorResponse InvalidRequest
        ("The request is missing the required parameter: " ++ "code") 400,
        storeA) :=
  ⟨(C8_missing_parameters cfgA envA storeA formNoState).1 "state" (by decide),
   (C8_missing_parameters cfgA envA storeA formCodeNone).2.2.1 (by decide)
      (by decide) (by decide) (by decide) (by decide) (by decide)⟩

/-- C9 (counterexample): the successful Authorize flow answers with a 302
redirect that sets no `Cache-Control` header at all, so not every response
produced by the core sets the no-cache headers. -/
theorem C9_counterexample :
    (Authorize cfgA envA storeA formAuth).1.status = 302 ∧
    (Authorize cfgA envA storeA formAuth).1.cacheControl = none := by
  decide

/-- C9 (amended): every Token response sets the no-cache headers, and
every Authorize response either sets them or is the success 302 redirect,
which sets no cache-control header. -/
theorem C9_no_cache_headers (cfg : Config) (env : Env) (st : SessionStore)
    (form : String → String) :
    ((Token cfg env st form).1.cacheControl = some noCacheValue) ∧
    ((Authorize cfg env st form).1.cacheControl = some noCacheValue ∨
      ((Authorize cfg env st form).1.status = 302 ∧
        (Authorize cfg env st form).1.cacheControl = none)) := by
  refine ⟨Token_cacheControl cfg env st form, ?_⟩
  rcases Authorize_shape cfg env st form with ⟨h, _⟩ | ⟨h1, h2, _⟩
  · exact Or.inl h
  · exact Or.inr ⟨h1, h2⟩

/-- C10: a refresh-token grant leaves the session store entirely
unchanged and succeeds even for a session that was never granted; the
only session mutation anywhere in the Token flow is marking a session
granted during an authorization_code exchange, and Authorize only ever
appends a fresh ungranted session. -/
theorem C10_refresh_frame (cfg : Config) (env : Env) (st : SessionStore)
    (form : String → String) :
    (form "grant_type" = "refresh_token" → (Token cfg env st form).2 = st) ∧
    (∀ s' ∈ (Token cfg env st form).2.sessions,
      s' ∈ st.sessions ∨
      (∃ s, s ∈ st.sessions ∧ s' = { s with granted := true } ∧
        form "grant_type" = "authorization_code")) ∧
    ((Authorize cfg env st form).2 = st ∨
      ∃ ns : Session, (Authorize cfg env st form).2.sessions =
        st.sessions ++ [ns] ∧ ns.granted = false) ∧
    (∀ (tok : JwtToken) (s : Session) (tr' : TokenResponse),
      form "client_id" = cfg.clientID → cfg.clientID ≠ "" →
      form "client_secret" = cfg.clientSecret → cfg.clientSecret ≠ "" →
      form "grant_type" = "refresh_token" → form "refresh_token" ≠ "" →
      authorizeToken env (form "refresh_token") = Except.ok tok →
      getSessionByToken env st tok = some s → s.granted = false →
      setTokens env
        { refreshToken := form "refresh_token", tokenType := "bearer",
          expiresIn := cfg.accessTTL } s "refresh_token" = Except.ok tr' →
      Token cfg env st form = (jsonTokenResponse tr', st)) := by
  refine ⟨fun hgt => Token_store_refresh hgt, Token_store_frame cfg env st form,
    ?_, ?_⟩
  · rcases Authorize_shape cfg env st form with ⟨_, h⟩ | ⟨_, _, h⟩
    · exact Or.inl h
    · exact Or.inr ⟨_, h, rfl⟩
  · intro tok s tr' h1 h1' h2 h2' hgt hrt htok hsess _hng hset
    exact Token_refresh_success
      (validateTokenParams_pass h1 h1' h2 h2' (by rw [hgt]; decide)) hgt
      (validateRefreshGrant_ok hrt hgt htok hsess) hset

/-- C10 witness: the sample refresh exchange leaves the store unchanged
and succeeds although the bound session was never granted. -/
theorem C10_witness :
    (Token cfgA envA storeA formRefresh).2 = storeA ∧
    Token cfgA envA storeA formRefresh = (jsonTokenResponse trR, storeA) :=
  ⟨(C10_refresh_frame cfgA envA storeA formRefresh).1 (by decide),
   (C10_refresh_frame cfgA envA storeA formRefresh).2.2.2 tokA sessA trR
      (by decide) (by decide) (by decide) (by decide) (by decide) (by decide)
      rfl (by decide) (by decide) rfl⟩

end Mockoidc
